import Mathlib

/-!
Shallow embedding of `SetupCV.setup` from
`src/Python/FreiStat/Electrochemical_methods/Setup_behavior/setup_cv.py`.

Parameter values are floats in the source; they are modelled as rationals,
since every operation performed on them (comparison, subtraction, absolute
value) is order-theoretic and exact on the inputs the claims quantify over.
Python runtime exceptions (out-of-range list indexing) are modelled by
`Option`: `none` is an uncaught `IndexError`, `some (code, calls)` is a
normal return carrying the integer error code and the ordered list of
collaborator calls performed during the run.
-/

set_option autoImplicit false

namespace FreiStat

/-- Modelled from the spec: the parameter-name identifiers imported from the
missing `data_storage.constants` module (string constants in the source).
They are pairwise-distinct opaque identifiers; only equality is ever used. -/
inductive ParamName where
  | START_POTENTIAL
  | LOWER_POTENTIAL
  | UPPER_POTENTIAL
  | STEP_SIZE
  | SCAN_RATE
  | CYCLE
  | LPTIA_RTIA_SIZE
  | FIXED_WE_POTENTIAL
  | MAINS_FILTER
  | SINC2_OVERSAMPLING
  | SINC3_OVERSAMPLING
  deriving DecidableEq, Inhabited, Repr

open ParamName

/-- Modelled from the spec: the cyclic-voltammetry experiment-mode identifier
`CV` from the missing constants module. -/
def CV : String := "CV"

/-- Modelled from the spec: expected parameter count for CV (11 entries). -/
def CV_NUM_PARAMETER : Nat := 11

/-- Modelled from the spec: success code (source docstring: 0 = no error). -/
def EC_NO_ERROR : Nat := 0

/-- Modelled from the spec: error-code base for setup errors (source
docstring table: codes 11001, 11100 + i, 11200 + i, so the base is 11000). -/
def EC_SETUP : Nat := 11000

/-- Modelled from the spec: offset 1, wrong amount of parameters (11001). -/
def EC_SE_AMOUNT_PARAMETER : Nat := 1

/-- Modelled from the spec: offset 2, scan range exceeded (11002). -/
def EC_SE_SCAN_RANGE_ERROR : Nat := 2

/-- Modelled from the spec: offset family 100 + i, parameter named wrong or
not found at position i (11100..11110). -/
def EC_SE_PARAM_NOT_FOUND : Nat := 100

/-- Modelled from the spec: offset family 200 + i, parameter out of bounds at
position i (11200..11210). -/
def EC_SE_PARAM_OUT_OF_BOUND : Nat := 200

/-- Modelled from the spec: standard voltage-envelope constant, in mV.  The
source comment says the scan range is limited to 4.0 V when the working
electrode potential is not fixed, and that limit is `VOLTAGE_RANGE * 2`. -/
def VOLTAGE_RANGE : ℚ := 2000

/-- Modelled from the spec: fixed-working-electrode-potential envelope, in mV
(source comment: scan range limited to 2.1 V in fixed mode), strictly
narrower than `VOLTAGE_RANGE * 2`. -/
def VOLTAGE_RANGE_FWP : ℚ := 2100

/-- Modelled from the spec: fixed lower bound for the step size.  The exact
numeric value is implementation config (spec section 6); the value is chosen
consistent with the spec's success example (Stepsize = 2 is valid). -/
def MIN_STEP_SIZE : ℚ := 1

/-- Modelled from the spec: fixed upper bound for the step size. -/
def MAX_STEP_SIZE : ℚ := 100

/-- Modelled from the spec: fixed lower bound for the scan rate (the spec's
success example Scanrate = 50 is valid). -/
def MIN_SCAN_RATE : ℚ := 1

/-- Modelled from the spec: fixed upper bound for the scan rate. -/
def MAX_SCAN_RATE : ℚ := 1000

/-- Modelled from the spec: fixed lower bound for the cycle count (the
spec's success example Cycle = 2 is valid). -/
def MIN_CYCLE : ℚ := 1

/-- Modelled from the spec: fixed upper bound for the cycle count. -/
def MAX_CYCLE : ℚ := 1000

/-- Modelled from the spec: smallest LPTIA feedback-resistor enum value. -/
def LPTIARTIA_OPEN : ℚ := 0

/-- Modelled from the spec: largest LPTIA feedback-resistor enum value
(512 kOhm selection). -/
def LPTIARTIA_512K : ℚ := 26

/-- Modelled from the spec: smallest Sinc2 oversampling-rate enum value. -/
def ADCSINC2OSR_DISABLED : ℚ := 0

/-- Modelled from the spec: largest Sinc2 oversampling-rate enum value (the
spec's success example Sinc2 = 667 is valid, so the bound is the 1333 rate). -/
def ADCSINC2OSR_1333 : ℚ := 1333

/-- Modelled from the spec: smallest Sinc3 oversampling-rate enum value
(0 = disabled). -/
def ADCSINC3OSR_DISABLED : ℚ := 0

/-- Modelled from the spec: largest Sinc3 oversampling-rate enum value
accepted by this validator. -/
def ADCSINC3OSR_2 : ℚ := 2

/-- One entry of `listExperimentParameters`: a `[name, value]` pair. -/
abbrev Entry := ParamName × ℚ

/-- One entry of `listReferenceList`: `[name, lowerBound, upperBound]`. -/
abbrev RefEntry := ParamName × ℚ × ℚ

/-- A collaborator call performed by `setup` (source lines 202-206).  The
collaborators themselves are out of scope; only the fact and order of the
calls is recorded. -/
inductive Call where
  | save_ExperimentType (mode : String)
  | save_ExperimentParmeters (params : List Entry)
  | setup_ExportFiles
  deriving DecidableEq, Repr

/-- Source lines 133-141: the smaller of the two vertex values
(`fStartPotentialLB`). -/
def vertexLB (v1 v2 : ℚ) : ℚ := if v1 > v2 then v2 else v1

/-- Source lines 133-141: the larger of the two vertex values
(`fStartPotentialUB`). -/
def vertexUB (v1 v2 : ℚ) : ℚ := if v1 > v2 then v1 else v2

/-- Source lines 147-150: the selected voltage envelope `fVoltageRange`,
from the value of the parameter at index 7. -/
def fVoltageRange (flag : ℚ) : ℚ :=
  if flag = 1 then VOLTAGE_RANGE_FWP else VOLTAGE_RANGE * 2

/-- Source lines 153-173: `listReferenceList`, built from the derived start
potential bounds and the selected voltage envelope. -/
def listReferenceList (fStartPotentialLB fStartPotentialUB fVR : ℚ) :
    List RefEntry :=
  [ (START_POTENTIAL, fStartPotentialLB, fStartPotentialUB),
    (LOWER_POTENTIAL, fStartPotentialUB - fVR, fStartPotentialLB + fVR),
    (UPPER_POTENTIAL, fStartPotentialUB - fVR, fStartPotentialLB + fVR),
    (STEP_SIZE, MIN_STEP_SIZE, MAX_STEP_SIZE),
    (SCAN_RATE, MIN_SCAN_RATE, MAX_SCAN_RATE),
    (CYCLE, MIN_CYCLE, MAX_CYCLE),
    (LPTIA_RTIA_SIZE, LPTIARTIA_OPEN, LPTIARTIA_512K),
    (FIXED_WE_POTENTIAL, 0, 1),
    (MAINS_FILTER, 0, 1),
    (SINC2_OVERSAMPLING, ADCSINC2OSR_DISABLED, ADCSINC2OSR_1333),
    (SINC3_OVERSAMPLING, ADCSINC3OSR_DISABLED, ADCSINC3OSR_2) ]

/-- Source lines 182-194: the per-entry loop.  `k` is the running value of
`iEntry`.  Returns `some code` on the first violation, `none` when the loop
finishes without returning. -/
def checkEntries : Nat → List Entry → List RefEntry → Option Nat
  | _, [], _ => none
  | _, _ :: _, [] => none
  | k, e :: ps, r :: rs =>
    if e.1 ≠ r.1 then
      some (EC_SETUP + EC_SE_PARAM_NOT_FOUND + k)
    else if e.2 < r.2.1 ∨ e.2 > r.2.2 then
      some (EC_SETUP + EC_SE_PARAM_OUT_OF_BOUND + k)
    else
      checkEntries (k + 1) ps rs

/-- Source lines 126-209: `SetupCV.setup`.  `none` models an uncaught
`IndexError` (the source reads `listExperimentParameters[1]`, `[2]` and
`[7]` before the arity check); `some (code, calls)` models a normal return
of `iErrorCode` together with the collaborator calls performed. -/
def setupCV (listExperimentParameters : List Entry) : Option (Nat × List Call) := do
  let e1 ← listExperimentParameters.get? 1
  let e2 ← listExperimentParameters.get? 2
  let fStartPotentialLB := vertexLB e1.2 e2.2
  let fStartPotentialUB := vertexUB e1.2 e2.2
  let fRange := |e2.2 - e1.2|
  let e7 ← listExperimentParameters.get? 7
  let fVR := fVoltageRange e7.2
  let refs := listReferenceList fStartPotentialLB fStartPotentialUB fVR
  if listExperimentParameters.length ≠ CV_NUM_PARAMETER then
    pure (EC_SETUP + EC_SE_AMOUNT_PARAMETER, [])
  else
    match checkEntries 0 listExperimentParameters refs with
    | some code => pure (code, [])
    | none =>
      if fRange ≥ fVR then
        pure (EC_SETUP + EC_SE_SCAN_RANGE_ERROR, [])
      else
        pure (EC_NO_ERROR,
          [ Call.save_ExperimentType CV,
            Call.save_ExperimentParmeters listExperimentParameters,
            Call.setup_ExportFiles ])

/-- The reference list as `setup` builds it for a given parameter list
(reading the vertex values at indices 1 and 2 and the flag at index 7). -/
def refsOfP (p : List Entry) : List RefEntry :=
  listReferenceList (vertexLB (p.getD 1 default).2 (p.getD 2 default).2)
    (vertexUB (p.getD 1 default).2 (p.getD 2 default).2)
    (fVoltageRange (p.getD 7 default).2)

/-- `fRange` as `setup` computes it for a given parameter list. -/
def scanSpanOf (p : List Entry) : ℚ :=
  |(p.getD 2 default).2 - (p.getD 1 default).2|

/-- `fVoltageRange` as `setup` computes it for a given parameter list. -/
def envelopeOf (p : List Entry) : ℚ := fVoltageRange (p.getD 7 default).2

/-- The per-entry check at one position: correct name and value inside the
inclusive bounds. -/
def entryOk (e : Entry) (r : RefEntry) : Prop :=
  e.1 = r.1 ∧ r.2.1 ≤ e.2 ∧ e.2 ≤ r.2.2

instance (e : Entry) (r : RefEntry) : Decidable (entryOk e r) := by
  unfold entryOk; infer_instance

/-- All checks of `setup` pass: right arity, every entry correctly named and
inside its bounds, and the scan span strictly below the envelope. -/
def checksPass (p : List Entry) : Prop :=
  p.length = CV_NUM_PARAMETER ∧
  (∀ i, i < CV_NUM_PARAMETER → entryOk (p.getD i default) ((refsOfP p).getD i default)) ∧
  scanSpanOf p < envelopeOf p

instance (p : List Entry) : Decidable (checksPass p) := by
  unfold checksPass; infer_instance

/-- The three collaborator calls of the success path, in source order. -/
def successCalls (p : List Entry) : List Call :=
  [ Call.save_ExperimentType CV,
    Call.save_ExperimentParmeters p,
    Call.setup_ExportFiles ]

/-- A fully valid 11-entry parameter list, the spec's success example
(section 8) with the entries at positions 6 and 7 in the order the source
expects. -/
def validParams : List Entry :=
  [ (START_POTENTIAL, 0),
    (LOWER_POTENTIAL, 500),
    (UPPER_POTENTIAL, -500),
    (STEP_SIZE, 2),
    (SCAN_RATE, 50),
    (CYCLE, 2),
    (LPTIA_RTIA_SIZE, 2),
    (FIXED_WE_POTENTIAL, 0),
    (MAINS_FILTER, 0),
    (SINC2_OVERSAMPLING, 667),
    (SINC3_OVERSAMPLING, 0) ]

/-- The spec's success example with the entries at positions 6 and 7 in the
order the spec states them: `FixedWEPotential` sixth (0-based position 6)
and `LPTIA_Resistor` seventh.  Every value is valid for its field. -/
def specOrderParams : List Entry :=
  [ (START_POTENTIAL, 0),
    (LOWER_POTENTIAL, 500),
    (UPPER_POTENTIAL, -500),
    (STEP_SIZE, 2),
    (SCAN_RATE, 50),
    (CYCLE, 2),
    (FIXED_WE_POTENTIAL, 0),
    (LPTIA_RTIA_SIZE, 2),
    (MAINS_FILTER, 0),
    (SINC2_OVERSAMPLING, 667),
    (SINC3_OVERSAMPLING, 0) ]

/-- A valid list whose vertex span (4000 mV) is exactly the non-fixed
envelope `VOLTAGE_RANGE * 2`: every per-field check passes, only the
cross-field scan-range check is at its boundary. -/
def scanBoundaryParams : List Entry :=
  [ (START_POTENTIAL, 0),
    (LOWER_POTENTIAL, 2000),
    (UPPER_POTENTIAL, -2000),
    (STEP_SIZE, 2),
    (SCAN_RATE, 50),
    (CYCLE, 2),
    (LPTIA_RTIA_SIZE, 2),
    (FIXED_WE_POTENTIAL, 0),
    (MAINS_FILTER, 0),
    (SINC2_OVERSAMPLING, 667),
    (SINC3_OVERSAMPLING, 0) ]

/-- `validParams` with the step size lowered to 0, strictly below
`MIN_STEP_SIZE`; everything before position 3 is valid. -/
def stepOOBParams : List Entry :=
  [ (START_POTENTIAL, 0),
    (LOWER_POTENTIAL, 500),
    (UPPER_POTENTIAL, -500),
    (STEP_SIZE, 0),
    (SCAN_RATE, 50),
    (CYCLE, 2),
    (LPTIA_RTIA_SIZE, 2),
    (FIXED_WE_POTENTIAL, 0),
    (MAINS_FILTER, 0),
    (SINC2_OVERSAMPLING, 667),
    (SINC3_OVERSAMPLING, 0) ]

/-- A valid list with vertex span 3000 mV: inside the non-fixed envelope
(4000 mV) but beyond the fixed-mode envelope (2100 mV). -/
def envParams : List Entry :=
  [ (START_POTENTIAL, 0),
    (LOWER_POTENTIAL, 1500),
    (UPPER_POTENTIAL, -1500),
    (STEP_SIZE, 2),
    (SCAN_RATE, 50),
    (CYCLE, 2),
    (LPTIA_RTIA_SIZE, 2),
    (FIXED_WE_POTENTIAL, 0),
    (MAINS_FILTER, 0),
    (SINC2_OVERSAMPLING, 667),
    (SINC3_OVERSAMPLING, 0) ]

/-- A list whose first naming violation is at position 2, with later entries
poisoned: position 5 has both the wrong name and an out-of-range value and
position 3 has an out-of-range value. -/
def poisonedParams : List Entry :=
  [ (START_POTENTIAL, 0),
    (LOWER_POTENTIAL, 500),
    (START_POTENTIAL, -500),
    (STEP_SIZE, 99999),
    (SCAN_RATE, 50),
    (START_POTENTIAL, -42),
    (LPTIA_RTIA_SIZE, 2),
    (FIXED_WE_POTENTIAL, 0),
    (MAINS_FILTER, 0),
    (SINC2_OVERSAMPLING, 667),
    (SINC3_OVERSAMPLING, 0) ]

/-- A 12-entry list: `validParams` with one extra trailing entry. -/
def twelveParams : List Entry :=
  validParams ++ [(SINC3_OVERSAMPLING, 0)]

/-- Indexwise pairing of two cons lists, unfolded by one step. -/
theorem getD_forall_cons {α β : Type} [Inhabited α] [Inhabited β]
    (Q : α → β → Prop) (a : α) (b : β) (l : List α) (m : List β) :
    (∀ i, i < (a :: l).length → i < (b :: m).length →
        Q ((a :: l).getD i default) ((b :: m).getD i default)) ↔
      Q a b ∧
        ∀ i, i < l.length → i < m.length → Q (l.getD i default) (m.getD i default) := by
  constructor
  · intro h
    refine ⟨h 0 (by simp) (by simp), fun i h1 h2 => ?_⟩
    have := h (i + 1) (by simpa using Nat.succ_lt_succ h1)
      (by simpa using Nat.succ_lt_succ h2)
    simpa using this
  · rintro ⟨h0, h⟩ i h1 h2
    cases i with
    | zero => simpa using h0
    | succ j =>
      simp only [List.getD_cons_succ]
      exact h j (by simpa using h1) (by simpa using h2)

/-- The loop of source lines 182-194 completes without returning exactly when
every paired entry passes both the name check and the inclusive range check. -/
theorem checkEntries_none_iff (p : List Entry) :
    ∀ (refs : List RefEntry) (k : Nat),
      checkEntries k p refs = none ↔
        ∀ i, i < p.length → i < refs.length →
          entryOk (p.getD i default) (refs.getD i default) := by
  induction p with
  | nil => intro refs k; simp [checkEntries]
  | cons e ps ih =>
    intro refs k
    cases refs with
    | nil => simp [checkEntries]
    | cons r rs =>
      rw [getD_forall_cons]
      simp only [checkEntries]
      by_cases hname : e.1 = r.1
      · by_cases hb : e.2 < r.2.1 ∨ e.2 > r.2.2
        · simp only [hname, ne_eq, not_true_eq_false, if_false, hb, if_true]
          constructor
          · intro h; exact absurd h (by simp)
          · rintro ⟨⟨-, hlo, hhi⟩, -⟩
            rcases hb with hb | hb
            · exact absurd hlo (not_le.mpr hb)
            · exact absurd hhi (not_le.mpr hb)
        · simp only [hname, ne_eq, not_true_eq_false, if_false, hb, if_false,
            ih rs (k + 1)]
          have hok : entryOk e r := by
            refine ⟨hname, ?_, ?_⟩
            · exact not_lt.mp (fun h => hb (Or.inl h))
            · exact not_lt.mp (fun h => hb (Or.inr h))
          simp [hok]
      · simp only [hname, ne_eq, not_false_eq_true, if_true]
        constructor
        · intro h; exact absurd h (by simp)
        · rintro ⟨⟨h1, -⟩, -⟩; exact absurd h1 hname

/-- The loop of source lines 182-194 returns the code `c` exactly when some
position `i` is the first violation: every earlier position passes both
checks, and at `i` either the name differs (naming code) or the name matches
and the value lies strictly outside the inclusive bounds (bounds code). -/
theorem checkEntries_some_iff (p : List Entry) :
    ∀ (refs : List RefEntry) (k : Nat) (c : Nat),
      checkEntries k p refs = some c ↔
        ∃ i, i < p.length ∧ i < refs.length ∧
          (∀ j, j < i → entryOk (p.getD j default) (refs.getD j default)) ∧
          (((p.getD i default).1 ≠ (refs.getD i default).1 ∧
              c = EC_SETUP + EC_SE_PARAM_NOT_FOUND + (k + i)) ∨
            ((p.getD i default).1 = (refs.getD i default).1 ∧
              ((p.getD i default).2 < (refs.getD i default).2.1 ∨
                (p.getD i default).2 > (refs.getD i default).2.2) ∧
              c = EC_SETUP + EC_SE_PARAM_OUT_OF_BOUND + (k + i))) := by
  induction p with
  | nil => intro refs k c; simp [checkEntries]
  | cons e ps ih =>
    intro refs k c
    cases refs with
    | nil => simp [checkEntries]
    | cons r rs =>
      simp only [checkEntries]
      by_cases hname : e.1 = r.1
      · by_cases hb : e.2 < r.2.1 ∨ e.2 > r.2.2
        · simp only [hname, ne_eq, not_true_eq_false, if_false, hb, if_true,
            Option.some_inj]
          constructor
          · intro hc
            exact ⟨0, by simp, by simp, by simp,
              Or.inr (by simpa [hname, hb] using hc.symm)⟩
          · rintro ⟨i, -, -, hpre, hviol⟩
            cases i with
            | zero =>
              rcases hviol with ⟨h1, -⟩ | ⟨-, -, hc⟩
              · exact absurd hname (by simpa using h1)
              · simpa using hc.symm
            | succ j =>
              have h0 : entryOk e r := by simpa using hpre 0 (Nat.succ_pos j)
              rcases hb with hb | hb
              · exact absurd h0.2.1 (not_le.mpr hb)
              · exact absurd h0.2.2 (not_le.mpr hb)
        · simp only [hname, ne_eq, not_true_eq_false, if_false, hb, if_false,
            ih rs (k + 1) c]
          have hok : entryOk e r := by
            refine ⟨hname, ?_, ?_⟩
            · exact not_lt.mp (fun h => hb (Or.inl h))
            · exact not_lt.mp (fun h => hb (Or.inr h))
          constructor
          · rintro ⟨i, h1, h2, hpre, hviol⟩
            refine ⟨i + 1, by simpa using Nat.succ_lt_succ h1,
              by simpa using Nat.succ_lt_succ h2, ?_, ?_⟩
            · intro j hj
              cases j with
              | zero => simpa using hok
              | succ j' =>
                simp only [List.getD_cons_succ]
                exact hpre j' (by omega)
            · have harith : k + 1 + i = k + (i + 1) := by omega
              simpa [harith] using hviol
          · rintro ⟨i, h1, h2, hpre, hviol⟩
            cases i with
            | zero =>
              rcases hviol with ⟨h1, -⟩ | ⟨-, hb', -⟩
              · exact absurd hname (by simpa using h1)
              · exact absurd (by simpa using hb') hb
            | succ j =>
              refine ⟨j, by simpa using h1, by simpa using h2, ?_, ?_⟩
              · intro j' hj'
                have := hpre (j' + 1) (by omega)
                simpa using this
              · have harith : k + 1 + j = k + (j + 1) := by omega
                simpa [harith] using hviol
      · simp only [hname, ne_eq, not_false_eq_true, if_true, Option.some_inj]
        constructor
        · intro hc
          exact ⟨0, by simp, by simp, by simp, Or.inl (by simpa [hname] using hc.symm)⟩
        · rintro ⟨i, -, -, hpre, hviol⟩
          cases i with
          | zero =>
            rcases hviol with ⟨-, hc⟩ | ⟨h1, -⟩
            · simpa using hc.symm
            · exact absurd (by simpa using h1) hname
          | succ j =>
            have h0 : entryOk e r := by simpa using hpre 0 (Nat.succ_pos j)
            exact absurd h0.1 hname

/-- On a list with an index in range, `get?` returns the `getD` value. -/
theorem get?_eq_some_getD {α : Type} [Inhabited α] (l : List α) (n : Nat)
    (hn : n < l.length) : l.get? n = some (l.getD n default) := by
  rw [List.getD_eq_getElem?_getD, List.get?_eq_getElem?,
    List.getElem?_eq_getElem hn]
  rfl

/-- Fewer than 8 entries: the source raises an uncaught `IndexError` while
reading `listExperimentParameters[1]`, `[2]` or `[7]` (lines 133-147),
before the arity check of line 176 is reached. -/
theorem setupCV_crash (p : List Entry) (h : p.length < 8) : setupCV p = none := by
  have h7 : p.get? 7 = none := by
    rw [List.get?_eq_getElem?]
    exact List.getElem?_eq_none (by omega)
  cases h1 : p.get? 1 <;> cases h2 : p.get? 2 <;>
    simp only [setupCV, h1, h2, h7, Option.bind_none, Option.bind_some,
      Option.none_bind, Option.some_bind, bind]

/-- With at least 8 entries all three prelude reads succeed, and `setup`
reduces to the arity check, the per-entry loop over the reference list built
from positions 1, 2 and 7, and the scan-range check. -/
theorem setupCV_eq (p : List Entry) (h : 8 ≤ p.length) :
    setupCV p =
      if p.length ≠ CV_NUM_PARAMETER then
        some (EC_SETUP + EC_SE_AMOUNT_PARAMETER, [])
      else
        match checkEntries 0 p (refsOfP p) with
        | some code => some (code, [])
        | none =>
          if scanSpanOf p ≥ envelopeOf p then
            some (EC_SETUP + EC_SE_SCAN_RANGE_ERROR, [])
          else
            some (EC_NO_ERROR,
              [ Call.save_ExperimentType CV,
                Call.save_ExperimentParmeters p,
                Call.setup_ExportFiles ]) := by
  have h1 := get?_eq_some_getD p 1 (by omega)
  have h2 := get?_eq_some_getD p 2 (by omega)
  have h7 := get?_eq_some_getD p 7 (by omega)
  simp only [setupCV, h1, h2, h7, Option.bind_some, Option.some_bind, bind,
    refsOfP, scanSpanOf, envelopeOf]
  rfl

/-- `fStartPotentialLB` is the minimum of the two vertex values. -/
theorem vertexLB_eq_min (v1 v2 : ℚ) : vertexLB v1 v2 = min v1 v2 := by
  unfold vertexLB
  rcases le_or_lt v1 v2 with h | h
  · rw [if_neg (not_lt.mpr h), min_eq_left h]
  · rw [if_pos h, min_eq_right h.le]

/-- `fStartPotentialUB` is the maximum of the two vertex values. -/
theorem vertexUB_eq_max (v1 v2 : ℚ) : vertexUB v1 v2 = max v1 v2 := by
  unfold vertexUB
  rcases le_or_lt v1 v2 with h | h
  · rw [if_neg (not_lt.mpr h), max_eq_right h]
  · rw [if_pos h, max_eq_left h.le]

/-- The derived lower start-potential bound ignores the vertex order. -/
theorem vertexLB_comm (v1 v2 : ℚ) : vertexLB v1 v2 = vertexLB v2 v1 := by
  rw [vertexLB_eq_min, vertexLB_eq_min, min_comm]

/-- The derived upper start-potential bound ignores the vertex order. -/
theorem vertexUB_comm (v1 v2 : ℚ) : vertexUB v1 v2 = vertexUB v2 v1 := by
  rw [vertexUB_eq_max, vertexUB_eq_max, max_comm]

/-- Both selectable envelopes are positive. -/
theorem fVoltageRange_pos (flag : ℚ) : 0 < fVoltageRange flag := by
  unfold fVoltageRange VOLTAGE_RANGE VOLTAGE_RANGE_FWP
  split <;> norm_num

/-- The reference list always has the expected 11 entries. -/
theorem refsOfP_length (p : List Entry) :
    (refsOfP p).length = CV_NUM_PARAMETER := rfl

/-- For either vertex value, lying outside the common derived vertex bound
is equivalent to the scan span exceeding the envelope, hence equivalent for
the two vertex values (the bound is symmetric in them). -/
theorem vertex_bound_swap (v1 v2 env : ℚ) (henv : 0 < env) :
    (v1 < vertexUB v1 v2 - env ∨ v1 > vertexLB v1 v2 + env) ↔
      (v2 < vertexUB v1 v2 - env ∨ v2 > vertexLB v1 v2 + env) := by
  rw [vertexLB_eq_min, vertexUB_eq_max]
  rcases le_or_lt v1 v2 with h | h
  · rw [min_eq_left h, max_eq_right h]
    constructor
    · rintro (h1 | h1)
      · right; linarith
      · exfalso; linarith
    · rintro (h1 | h1)
      · exfalso; linarith
      · left; linarith
  · rw [min_eq_right h.le, max_eq_left h.le]
    constructor
    · rintro (h1 | h1)
      · exfalso; linarith
      · left; linarith
    · rintro (h1 | h1)
      · right; linarith
      · exfalso; linarith

example : setupCV validParams = some (0, successCalls validParams) := by
  norm_num [setupCV, validParams, successCalls, checkEntries, listReferenceList,
    vertexLB, vertexUB, fVoltageRange, VOLTAGE_RANGE, VOLTAGE_RANGE_FWP,
    MIN_STEP_SIZE, MAX_STEP_SIZE, MIN_SCAN_RATE, MAX_SCAN_RATE, MIN_CYCLE,
    MAX_CYCLE, LPTIARTIA_OPEN, LPTIARTIA_512K, ADCSINC2OSR_DISABLED,
    ADCSINC2OSR_1333, ADCSINC3OSR_DISABLED, ADCSINC3OSR_2, EC_NO_ERROR,
    CV_NUM_PARAMETER]

example : setupCV (validParams.take 7) = none := by
  norm_num [setupCV, validParams]

example : setupCV (validParams.take 10) =
    some (EC_SETUP + EC_SE_AMOUNT_PARAMETER, []) := by
  norm_num [setupCV, validParams, CV_NUM_PARAMETER, EC_SETUP,
    EC_SE_AMOUNT_PARAMETER]

example : checksPass validParams := by
  refine ⟨by norm_num [validParams, CV_NUM_PARAMETER], fun i hi => ?_, ?_⟩
  · simp only [CV_NUM_PARAMETER] at hi
    interval_cases i <;>
      norm_num [validParams, refsOfP, listReferenceList, entryOk, vertexLB,
        vertexUB, fVoltageRange, VOLTAGE_RANGE, VOLTAGE_RANGE_FWP,
        MIN_STEP_SIZE, MAX_STEP_SIZE, MIN_SCAN_RATE, MAX_SCAN_RATE, MIN_CYCLE,
        MAX_CYCLE, LPTIARTIA_OPEN, LPTIARTIA_512K, ADCSINC2OSR_DISABLED,
        ADCSINC2OSR_1333, ADCSINC3OSR_DISABLED, ADCSINC3OSR_2, CV_NUM_PARAMETER]
  · norm_num [validParams, scanSpanOf, envelopeOf, fVoltageRange,
      VOLTAGE_RANGE, VOLTAGE_RANGE_FWP]

/-- C1: the claim says every list whose length differs from 11 — including
lists with fewer than 8 entries — yields the arity error code
`EC_SETUP + EC_SE_AMOUNT_PARAMETER`.  On a well-formed 7-entry prefix of a
valid list, the code instead raises an uncaught `IndexError` (modelled as
`none`) while reading index 7 before the arity check, so no error code is
returned at all. -/
theorem C1_short_list_raises :
    (validParams.take 7).length ≠ CV_NUM_PARAMETER ∧
      setupCV (validParams.take 7) = none := by
  constructor
  · norm_num [validParams, CV_NUM_PARAMETER]
  · exact setupCV_crash _ (by norm_num [validParams])

/-- C2 counterexample: an 11-entry list with every value valid whose
position-6 entry is named `FIXED_WE_POTENTIAL` (the order the claim states)
is rejected with the naming error for position 6, because the code's name
check at position 6 compares against `LPTIA_RTIA_SIZE`, not against the
FixedWEPotential identifier. -/
theorem C2_counterexample :
    (specOrderParams.getD 6 default).1 = FIXED_WE_POTENTIAL ∧
      (specOrderParams.getD 7 default).1 = LPTIA_RTIA_SIZE ∧
      specOrderParams.length = CV_NUM_PARAMETER ∧
      setupCV specOrderParams = some (EC_SETUP + EC_SE_PARAM_NOT_FOUND + 6, []) := by
  refine ⟨rfl, rfl, rfl, ?_⟩
  norm_num [setupCV, specOrderParams, checkEntries, listReferenceList,
    vertexLB, vertexUB, fVoltageRange, VOLTAGE_RANGE, VOLTAGE_RANGE_FWP,
    MIN_STEP_SIZE, MAX_STEP_SIZE, MIN_SCAN_RATE, MAX_SCAN_RATE, MIN_CYCLE,
    MAX_CYCLE, LPTIARTIA_OPEN, LPTIARTIA_512K, ADCSINC2OSR_DISABLED,
    ADCSINC2OSR_1333, ADCSINC3OSR_DISABLED, ADCSINC3OSR_2, CV_NUM_PARAMETER,
    EC_SETUP, EC_SE_PARAM_NOT_FOUND]
  decide

/-- C2 amended: the expected positional names are, in order, StartVoltage,
FirstVertex (lower potential), SecondVertex (upper potential), Stepsize,
Scanrate, Cycle, LPTIA_Resistor, FixedWEPotential, MainsFilter,
Sinc2_Oversampling, Sinc3_Oversampling — i.e. the name check at 0-based
position 6 compares against the LPTIA_Resistor identifier and the check at
position 7 against the FixedWEPotential identifier. -/
theorem C2_amended_names (lb ub env : ℚ) :
    (listReferenceList lb ub env).map Prod.fst =
      [ START_POTENTIAL, LOWER_POTENTIAL, UPPER_POTENTIAL, STEP_SIZE,
        SCAN_RATE, CYCLE, LPTIA_RTIA_SIZE, FIXED_WE_POTENTIAL, MAINS_FILTER,
        SINC2_OVERSAMPLING, SINC3_OVERSAMPLING ] := rfl

/-- C6: for every pair of vertex values and every envelope selection, the
derived StartVoltage bound is `[min vertex, max vertex]` and both vertex
bounds are `[max vertex - envelope, min vertex + envelope]`. -/
theorem C6_derived_bounds (v1 v2 flag : ℚ) :
    (listReferenceList (vertexLB v1 v2) (vertexUB v1 v2)
        (fVoltageRange flag)).getD 0 default =
      (START_POTENTIAL, min v1 v2, max v1 v2) ∧
    (listReferenceList (vertexLB v1 v2) (vertexUB v1 v2)
        (fVoltageRange flag)).getD 1 default =
      (LOWER_POTENTIAL, max v1 v2 - fVoltageRange flag,
        min v1 v2 + fVoltageRange flag) ∧
    (listReferenceList (vertexLB v1 v2) (vertexUB v1 v2)
        (fVoltageRange flag)).getD 2 default =
      (UPPER_POTENTIAL, max v1 v2 - fVoltageRange flag,
        min v1 v2 + fVoltageRange flag) := by
  refine ⟨?_, ?_, ?_⟩ <;>
    simp [listReferenceList, vertexLB_eq_min, vertexUB_eq_max]

/-- C7: the envelope is `VOLTAGE_RANGE_FWP` exactly when the value at
position 7 equals 1 and `VOLTAGE_RANGE * 2` otherwise; the fixed-mode
envelope is strictly smaller; and the concrete vertex pair ±1500 mV passes
validation with the flag at 0 but fails (bounds error at position 1) with
the flag at 1, all other entries identical and valid. -/
theorem C7_envelope_selection :
    (∀ flag : ℚ, fVoltageRange flag =
        if flag = 1 then VOLTAGE_RANGE_FWP else VOLTAGE_RANGE * 2) ∧
    VOLTAGE_RANGE_FWP < VOLTAGE_RANGE * 2 ∧
    setupCV envParams = some (EC_NO_ERROR, successCalls envParams) ∧
    setupCV (envParams.set 7 (FIXED_WE_POTENTIAL, 1)) =
      some (EC_SETUP + EC_SE_PARAM_OUT_OF_BOUND + 1, []) := by
  refine ⟨fun flag => rfl, by norm_num [VOLTAGE_RANGE, VOLTAGE_RANGE_FWP],
    ?_, ?_⟩
  · norm_num [setupCV, envParams, successCalls, checkEntries,
      listReferenceList, vertexLB, vertexUB, fVoltageRange, VOLTAGE_RANGE,
      VOLTAGE_RANGE_FWP, MIN_STEP_SIZE, MAX_STEP_SIZE, MIN_SCAN_RATE,
      MAX_SCAN_RATE, MIN_CYCLE, MAX_CYCLE, LPTIARTIA_OPEN, LPTIARTIA_512K,
      ADCSINC2OSR_DISABLED, ADCSINC2OSR_1333, ADCSINC3OSR_DISABLED,
      ADCSINC3OSR_2, EC_NO_ERROR, CV_NUM_PARAMETER]
  · norm_num [setupCV, envParams, List.set, checkEntries,
      listReferenceList, vertexLB, vertexUB, fVoltageRange, VOLTAGE_RANGE,
      VOLTAGE_RANGE_FWP, MIN_STEP_SIZE, MAX_STEP_SIZE, MIN_SCAN_RATE,
      MAX_SCAN_RATE, MIN_CYCLE, MAX_CYCLE, LPTIARTIA_OPEN, LPTIARTIA_512K,
      ADCSINC2OSR_DISABLED, ADCSINC2OSR_1333, ADCSINC3OSR_DISABLED,
      ADCSINC3OSR_2, CV_NUM_PARAMETER, EC_SETUP, EC_SE_PARAM_OUT_OF_BOUND]

/-- C3: `setup` returns 0 with exactly the three collaborator calls
`save_ExperimentType`, `save_ExperimentParmeters`, `setup_ExportFiles`, in
that order, if and only if all checks pass; on every nonzero return no
collaborator is called. -/
theorem C3_success_iff_calls (p : List Entry) :
    (setupCV p = some (EC_NO_ERROR, successCalls p) ↔ checksPass p) ∧
      (∀ c calls, setupCV p = some (c, calls) → c ≠ EC_NO_ERROR → calls = []) := by
  rcases lt_or_le p.length 8 with hlen | hlen
  · have hc := setupCV_crash p hlen
    refine ⟨⟨fun h => ?_, fun h => ?_⟩, fun c calls h hc0 => ?_⟩
    · rw [hc] at h; cases h
    · exfalso
      have := h.1
      simp only [CV_NUM_PARAMETER] at this
      omega
    · rw [hc] at h; cases h
  · rw [setupCV_eq p hlen]
    by_cases h11 : p.length = CV_NUM_PARAMETER
    · rw [if_neg (by simp [h11])]
      cases hchk : checkEntries 0 p (refsOfP p) with
      | some code =>
        obtain ⟨i, hi1, hi2, -, hviol⟩ :=
          (checkEntries_some_iff p (refsOfP p) 0 code).mp hchk
        have hcode : code ≠ EC_NO_ERROR := by
          rcases hviol with ⟨-, hc⟩ | ⟨-, -, hc⟩ <;>
            simp [hc, EC_SETUP, EC_SE_PARAM_NOT_FOUND,
              EC_SE_PARAM_OUT_OF_BOUND, EC_NO_ERROR]
        refine ⟨⟨fun h => ?_, fun hcp => ?_⟩, fun c calls h hc0 => ?_⟩
        · rw [Option.some_inj, Prod.mk.injEq] at h
          exact absurd h.1 hcode
        · exfalso
          have hok := hcp.2.1 i (by rw [← h11]; exact hi1)
          rcases hviol with ⟨hn, -⟩ | ⟨-, hb, -⟩
          · exact hn hok.1
          · rcases hb with hb | hb
            · exact absurd hok.2.1 (not_le.mpr hb)
            · exact absurd hok.2.2 (not_le.mpr hb)
        · rw [Option.some_inj, Prod.mk.injEq] at h
          exact h.2.symm
      | none =>
        have hall := (checkEntries_none_iff p (refsOfP p) 0).mp hchk
        by_cases hscan : envelopeOf p ≤ scanSpanOf p
        · rw [if_pos hscan]
          refine ⟨⟨fun h => ?_, fun hcp => ?_⟩, fun c calls h hc0 => ?_⟩
          · rw [Option.some_inj, Prod.mk.injEq] at h
            exfalso
            have := h.1
            simp only [EC_SETUP, EC_SE_SCAN_RANGE_ERROR, EC_NO_ERROR] at this
            omega
          · exact absurd hcp.2.2 (not_lt.mpr hscan)
          · rw [Option.some_inj, Prod.mk.injEq] at h
            exact h.2.symm
        · rw [if_neg hscan]
          refine ⟨⟨fun h => ?_, fun hcp => rfl⟩, fun c calls h hc0 => ?_⟩
          · refine ⟨h11, fun i hi => ?_, not_le.mp hscan⟩
            exact hall i (by omega) (by rw [refsOfP_length]; exact hi)
          · rw [Option.some_inj, Prod.mk.injEq] at h
            exact absurd h.1.symm hc0
    · rw [if_pos h11]
      refine ⟨⟨fun h => ?_, fun hcp => ?_⟩, fun c calls h hc0 => ?_⟩
      · rw [Option.some_inj, Prod.mk.injEq] at h
        exfalso
        have := h.1
        simp only [EC_SETUP, EC_SE_AMOUNT_PARAMETER, EC_NO_ERROR] at this
        omega
      · exact absurd hcp.1 h11
      · rw [Option.some_inj, Prod.mk.injEq] at h
        exact h.2.symm

/-- C4: with the right arity and every per-field check passing, a scan span
greater than or equal to the envelope yields the scan-range error
`EC_SETUP + EC_SE_SCAN_RANGE_ERROR`, and a scan span strictly below the
envelope yields success — equality at the boundary fails. -/
theorem C4_scan_range_exclusive (p : List Entry)
    (hlen : p.length = CV_NUM_PARAMETER)
    (hok : ∀ i, i < CV_NUM_PARAMETER →
      entryOk (p.getD i default) ((refsOfP p).getD i default)) :
    (envelopeOf p ≤ scanSpanOf p →
        setupCV p = some (EC_SETUP + EC_SE_SCAN_RANGE_ERROR, [])) ∧
      (scanSpanOf p < envelopeOf p →
        setupCV p = some (EC_NO_ERROR, successCalls p)) := by
  have h8 : 8 ≤ p.length := by
    rw [hlen]; simp [CV_NUM_PARAMETER]
  have hchk : checkEntries 0 p (refsOfP p) = none :=
    (checkEntries_none_iff p (refsOfP p) 0).mpr
      (fun i hi _ => hok i (by rw [← hlen]; exact hi))
  rw [setupCV_eq p h8, if_neg (by simp [hlen])]
  simp only [hchk]
  constructor
  · intro h; rw [if_pos h]
  · intro h; rw [if_neg (not_le.mpr h)]; rfl

/-- C5: with the right arity, every position before `i` passing and the
name at `i` correct, `setup` returns the bounds error
`EC_SETUP + EC_SE_PARAM_OUT_OF_BOUND + i` exactly when the value at `i`
lies strictly below the lower bound or strictly above the upper bound of
reference entry `i` — values exactly at either bound pass. -/
theorem C5_inclusive_bounds (p : List Entry) (i : Nat)
    (hlen : p.length = CV_NUM_PARAMETER) (hi : i < CV_NUM_PARAMETER)
    (hpre : ∀ j, j < i → entryOk (p.getD j default) ((refsOfP p).getD j default))
    (hname : (p.getD i default).1 = ((refsOfP p).getD i default).1) :
    setupCV p = some (EC_SETUP + EC_SE_PARAM_OUT_OF_BOUND + i, []) ↔
      ((p.getD i default).2 < ((refsOfP p).getD i default).2.1 ∨
        (p.getD i default).2 > ((refsOfP p).getD i default).2.2) := by
  have h8 : 8 ≤ p.length := by
    rw [hlen]; simp [CV_NUM_PARAMETER]
  rw [setupCV_eq p h8, if_neg (by simp [hlen])]
  constructor
  · intro h
    cases hchk : checkEntries 0 p (refsOfP p) with
    | none =>
      exfalso
      simp only [hchk] at h
      by_cases hscan : envelopeOf p ≤ scanSpanOf p
      · rw [if_pos hscan, Option.some_inj, Prod.mk.injEq] at h
        have := h.1
        simp only [EC_SETUP, EC_SE_SCAN_RANGE_ERROR,
          EC_SE_PARAM_OUT_OF_BOUND] at this
        omega
      · rw [if_neg hscan, Option.some_inj, Prod.mk.injEq] at h
        have := h.1
        simp only [EC_NO_ERROR, EC_SETUP, EC_SE_PARAM_OUT_OF_BOUND] at this
        omega
    | some code =>
      simp only [hchk, Option.some_inj, Prod.mk.injEq] at h
      obtain ⟨j, hj1, hj2, -, hviol⟩ :=
        (checkEntries_some_iff p (refsOfP p) 0 code).mp hchk
      have hj11 : j < 11 := by
        rw [hlen] at hj1
        simpa [CV_NUM_PARAMETER] using hj1
      have hi11 : i < 11 := by simpa [CV_NUM_PARAMETER] using hi
      rcases hviol with ⟨-, hc⟩ | ⟨-, hb, hc⟩
      · exfalso
        rw [hc] at h
        have := h.1
        simp only [EC_SETUP, EC_SE_PARAM_NOT_FOUND,
          EC_SE_PARAM_OUT_OF_BOUND] at this
        omega
      · have hji : j = i := by
          rw [hc] at h
          have := h.1
          simp only [EC_SETUP, EC_SE_PARAM_OUT_OF_BOUND] at this
          omega
        rw [← hji]
        exact hb
  · intro hb
    have hchk : checkEntries 0 p (refsOfP p) =
        some (EC_SETUP + EC_SE_PARAM_OUT_OF_BOUND + i) := by
      apply (checkEntries_some_iff p (refsOfP p) 0 _).mpr
      refine ⟨i, by rw [hlen]; exact hi, by rw [refsOfP_length]; exact hi,
        hpre, Or.inr ⟨hname, hb, by simp⟩⟩
    simp only [hchk]

/-- C9: checks run in ascending position order, name before range,
short-circuiting on the first violation: if every position before `i`
passes both checks and the entry at `i` is misnamed, `setup` returns the
naming error `EC_SETUP + EC_SE_PARAM_NOT_FOUND + i`, whatever the values
and names of all entries after `i` (and whatever the value at `i`). -/
theorem C9_name_check_short_circuits (p : List Entry) (i : Nat)
    (hlen : p.length = CV_NUM_PARAMETER) (hi : i < CV_NUM_PARAMETER)
    (hpre : ∀ j, j < i → entryOk (p.getD j default) ((refsOfP p).getD j default))
    (hname : (p.getD i default).1 ≠ ((refsOfP p).getD i default).1) :
    setupCV p = some (EC_SETUP + EC_SE_PARAM_NOT_FOUND + i, []) := by
  have h8 : 8 ≤ p.length := by
    rw [hlen]; simp [CV_NUM_PARAMETER]
  have hchk : checkEntries 0 p (refsOfP p) =
      some (EC_SETUP + EC_SE_PARAM_NOT_FOUND + i) := by
    apply (checkEntries_some_iff p (refsOfP p) 0 _).mpr
    exact ⟨i, by rw [hlen]; exact hi, by rw [refsOfP_length]; exact hi,
      hpre, Or.inl ⟨hname, by simp⟩⟩
  rw [setupCV_eq p h8, if_neg (by simp [hlen])]
  simp only [hchk]

/-- C10: every normal return of `setup` carries one of the codes 0,
base + 1 (arity), base + 2 (scan range), base + 100 + i or base + 200 + i
with i < 11; the documented codes base + 3 and base + 4 are never returned,
and a list with more than 11 entries yields the generic arity code
base + 1, not base + 4. -/
theorem C10_code_taxonomy :
    (∀ p c calls, setupCV p = some (c, calls) →
      (c = EC_NO_ERROR ∨ c = EC_SETUP + EC_SE_AMOUNT_PARAMETER ∨
        c = EC_SETUP + EC_SE_SCAN_RANGE_ERROR ∨
        (∃ i, i < CV_NUM_PARAMETER ∧ c = EC_SETUP + EC_SE_PARAM_NOT_FOUND + i) ∨
        (∃ i, i < CV_NUM_PARAMETER ∧ c = EC_SETUP + EC_SE_PARAM_OUT_OF_BOUND + i)) ∧
      c ≠ EC_SETUP + 3 ∧ c ≠ EC_SETUP + 4) ∧
    (∀ p, CV_NUM_PARAMETER < p.length →
      setupCV p = some (EC_SETUP + EC_SE_AMOUNT_PARAMETER, [])) := by
  have classify : ∀ p c calls, setupCV p = some (c, calls) →
      c = EC_NO_ERROR ∨ c = EC_SETUP + EC_SE_AMOUNT_PARAMETER ∨
        c = EC_SETUP + EC_SE_SCAN_RANGE_ERROR ∨
        (∃ i, i < CV_NUM_PARAMETER ∧ c = EC_SETUP + EC_SE_PARAM_NOT_FOUND + i) ∨
        (∃ i, i < CV_NUM_PARAMETER ∧ c = EC_SETUP + EC_SE_PARAM_OUT_OF_BOUND + i) := by
    intro p c calls h
    rcases lt_or_le p.length 8 with hlen | hlen
    · rw [setupCV_crash p hlen] at h; cases h
    · rw [setupCV_eq p hlen] at h
      by_cases h11 : p.length = CV_NUM_PARAMETER
      · rw [if_neg (by simp [h11])] at h
        cases hchk : checkEntries 0 p (refsOfP p) with
        | some code =>
          simp only [hchk, Option.some_inj, Prod.mk.injEq] at h
          obtain ⟨i, hi1, -, -, hviol⟩ :=
            (checkEntries_some_iff p (refsOfP p) 0 code).mp hchk
          rcases hviol with ⟨-, hc⟩ | ⟨-, -, hc⟩
          · refine Or.inr (Or.inr (Or.inr (Or.inl ⟨i, by omega, ?_⟩)))
            rw [← h.1, hc]; simp
          · refine Or.inr (Or.inr (Or.inr (Or.inr ⟨i, by omega, ?_⟩)))
            rw [← h.1, hc]; simp
        | none =>
          simp only [hchk] at h
          by_cases hscan : envelopeOf p ≤ scanSpanOf p
          · rw [if_pos hscan, Option.some_inj, Prod.mk.injEq] at h
            exact Or.inr (Or.inr (Or.inl h.1.symm))
          · rw [if_neg hscan, Option.some_inj, Prod.mk.injEq] at h
            exact Or.inl h.1.symm
      · rw [if_pos h11, Option.some_inj, Prod.mk.injEq] at h
        exact Or.inr (Or.inl h.1.symm)
  refine ⟨fun p c calls h => ⟨classify p c calls h, ?_, ?_⟩, fun p hlong => ?_⟩
  · rcases classify p c calls h with hc | hc | hc | ⟨i, hi, hc⟩ | ⟨i, hi, hc⟩ <;>
      simp only [hc, EC_NO_ERROR, EC_SETUP, EC_SE_AMOUNT_PARAMETER,
        EC_SE_SCAN_RANGE_ERROR, EC_SE_PARAM_NOT_FOUND,
        EC_SE_PARAM_OUT_OF_BOUND, CV_NUM_PARAMETER] at * <;> omega
  · rcases classify p c calls h with hc | hc | hc | ⟨i, hi, hc⟩ | ⟨i, hi, hc⟩ <;>
      simp only [hc, EC_NO_ERROR, EC_SETUP, EC_SE_AMOUNT_PARAMETER,
        EC_SE_SCAN_RANGE_ERROR, EC_SE_PARAM_NOT_FOUND,
        EC_SE_PARAM_OUT_OF_BOUND, CV_NUM_PARAMETER] at * <;> omega
  · have h8 : 8 ≤ p.length := by
      simp only [CV_NUM_PARAMETER] at hlong; omega
    rw [setupCV_eq p h8, if_pos (by omega)]

/-- Swapping the two values paired with reference entries that share one
bound interval does not change the outcome of the loop, provided the two
values violate that common interval together or not at all. -/
theorem checkEntries_swap (k : Nat) (e0 : Entry) (n1 n2 m1 m2 : ParamName)
    (v1 v2 lo hi : ℚ) (rest : List Entry) (r0 : RefEntry) (rs : List RefEntry)
    (hcond : (v1 < lo ∨ v1 > hi) ↔ (v2 < lo ∨ v2 > hi)) :
    checkEntries k (e0 :: (n1, v1) :: (n2, v2) :: rest)
        (r0 :: (m1, lo, hi) :: (m2, lo, hi) :: rs) =
      checkEntries k (e0 :: (n1, v2) :: (n2, v1) :: rest)
        (r0 :: (m1, lo, hi) :: (m2, lo, hi) :: rs) := by
  by_cases h0n : e0.1 ≠ r0.1
  · simp [checkEntries, h0n]
  · by_cases h0b : e0.2 < r0.2.1 ∨ e0.2 > r0.2.2
    · simp [checkEntries, h0n, h0b]
    · by_cases h1n : n1 ≠ m1
      · simp [checkEntries, h0n, h0b, h1n]
      · by_cases h1b : v1 < lo ∨ v1 > hi
        · have h2b : v2 < lo ∨ v2 > hi := hcond.mp h1b
          simp [checkEntries, h0n, h0b, h1n, h1b, h2b]
        · have h2b : ¬(v2 < lo ∨ v2 > hi) := fun h => h1b (hcond.mpr h)
          by_cases h2n : n2 ≠ m2
          · simp [checkEntries, h0n, h0b, h1n, h1b, h2b, h2n]
          · simp [checkEntries, h0n, h0b, h1n, h1b, h2b, h2n]

/-- C8: swapping the numeric values of the entries at positions 1 and 2
(FirstVertex and SecondVertex), all other entries unchanged, yields the
same derived reference bounds, the same scan span and the same return value
of `setup` (the same error code, or a crash in both runs). -/
theorem C8_vertex_swap (e0 : Entry) (n1 n2 : ParamName) (v1 v2 : ℚ)
    (rest : List Entry) :
    refsOfP (e0 :: (n1, v1) :: (n2, v2) :: rest) =
        refsOfP (e0 :: (n1, v2) :: (n2, v1) :: rest) ∧
      scanSpanOf (e0 :: (n1, v1) :: (n2, v2) :: rest) =
        scanSpanOf (e0 :: (n1, v2) :: (n2, v1) :: rest) ∧
      Option.map Prod.fst (setupCV (e0 :: (n1, v1) :: (n2, v2) :: rest)) =
        Option.map Prod.fst (setupCV (e0 :: (n1, v2) :: (n2, v1) :: rest)) := by
  have hrefs : refsOfP (e0 :: (n1, v1) :: (n2, v2) :: rest) =
      refsOfP (e0 :: (n1, v2) :: (n2, v1) :: rest) := by
    unfold refsOfP
    simp only [List.getD_cons_succ, List.getD_cons_zero]
    rw [vertexLB_comm v1 v2, vertexUB_comm v1 v2]
  have hspan : scanSpanOf (e0 :: (n1, v1) :: (n2, v2) :: rest) =
      scanSpanOf (e0 :: (n1, v2) :: (n2, v1) :: rest) := by
    unfold scanSpanOf
    simp only [List.getD_cons_succ, List.getD_cons_zero]
    exact abs_sub_comm _ _
  have henv : envelopeOf (e0 :: (n1, v1) :: (n2, v2) :: rest) =
      envelopeOf (e0 :: (n1, v2) :: (n2, v1) :: rest) := rfl
  refine ⟨hrefs, hspan, ?_⟩
  rcases lt_or_le (e0 :: (n1, v1) :: (n2, v2) :: rest).length 8 with h8 | h8
  · rw [setupCV_crash (e0 :: (n1, v1) :: (n2, v2) :: rest) h8,
      setupCV_crash (e0 :: (n1, v2) :: (n2, v1) :: rest) h8]
  · have hcheck : checkEntries 0 (e0 :: (n1, v1) :: (n2, v2) :: rest)
        (refsOfP (e0 :: (n1, v1) :: (n2, v2) :: rest)) =
        checkEntries 0 (e0 :: (n1, v2) :: (n2, v1) :: rest)
          (refsOfP (e0 :: (n1, v1) :: (n2, v2) :: rest)) := by
      have hcond := vertex_bound_swap v1 v2
        (fVoltageRange ((rest.getD 4 default).2))
        (fVoltageRange_pos ((rest.getD 4 default).2))
      exact checkEntries_swap 0 e0 n1 n2 LOWER_POTENTIAL UPPER_POTENTIAL
        v1 v2 _ _ rest _ _ hcond
    have hfull : checkEntries 0 (e0 :: (n1, v2) :: (n2, v1) :: rest)
        (refsOfP (e0 :: (n1, v2) :: (n2, v1) :: rest)) =
        checkEntries 0 (e0 :: (n1, v1) :: (n2, v2) :: rest)
          (refsOfP (e0 :: (n1, v1) :: (n2, v2) :: rest)) := by
      rw [← hrefs]
      exact hcheck.symm
    rw [setupCV_eq (e0 :: (n1, v1) :: (n2, v2) :: rest) h8,
      setupCV_eq (e0 :: (n1, v2) :: (n2, v1) :: rest) h8, hfull]
    simp only [List.length_cons]
    by_cases h11 : rest.length + 1 + 1 + 1 = CV_NUM_PARAMETER
    · have hno : ¬(rest.length + 1 + 1 + 1 ≠ CV_NUM_PARAMETER) := by
        simp [h11]
      rw [if_neg hno, if_neg hno]
      cases hc : checkEntries 0 (e0 :: (n1, v1) :: (n2, v2) :: rest)
          (refsOfP (e0 :: (n1, v1) :: (n2, v2) :: rest)) with
      | some code => simp
      | none =>
        rw [← hspan, ← henv]
        by_cases hscan : envelopeOf (e0 :: (n1, v1) :: (n2, v2) :: rest) ≤
            scanSpanOf (e0 :: (n1, v1) :: (n2, v2) :: rest)
        · rw [if_pos hscan, if_pos hscan]
        · rw [if_neg hscan, if_neg hscan]
          simp
    · rw [if_pos h11, if_pos h11]

/-- Witness for C2's amended statement at a concrete instantiation. -/
theorem C2_amended_names_witness :
    (listReferenceList 0 0 0).map Prod.fst =
      [ START_POTENTIAL, LOWER_POTENTIAL, UPPER_POTENTIAL, STEP_SIZE,
        SCAN_RATE, CYCLE, LPTIA_RTIA_SIZE, FIXED_WE_POTENTIAL, MAINS_FILTER,
        SINC2_OVERSAMPLING, SINC3_OVERSAMPLING ] :=
  C2_amended_names 0 0 0

/-- Witness for C3: on the spec's success example, `setup` returns 0 with
exactly the three collaborator calls. -/
theorem C3_success_iff_calls_witness :
    setupCV validParams = some (EC_NO_ERROR, successCalls validParams) :=
  (C3_success_iff_calls validParams).1.mpr (by
    refine ⟨rfl, fun i hi => ?_, ?_⟩
    · simp only [CV_NUM_PARAMETER] at hi
      interval_cases i <;>
        norm_num [validParams, refsOfP, listReferenceList, entryOk, vertexLB,
          vertexUB, fVoltageRange, VOLTAGE_RANGE, VOLTAGE_RANGE_FWP,
          MIN_STEP_SIZE, MAX_STEP_SIZE, MIN_SCAN_RATE, MAX_SCAN_RATE,
          MIN_CYCLE, MAX_CYCLE, LPTIARTIA_OPEN, LPTIARTIA_512K,
          ADCSINC2OSR_DISABLED, ADCSINC2OSR_1333, ADCSINC3OSR_DISABLED,
          ADCSINC3OSR_2]
    · norm_num [validParams, scanSpanOf, envelopeOf, fVoltageRange,
        VOLTAGE_RANGE, VOLTAGE_RANGE_FWP])

/-- Witness for C4: a scan span exactly equal to the envelope (vertices
±2000 mV against the 4000 mV non-fixed envelope), with every per-field
check passing, is rejected with the scan-range error. -/
theorem C4_scan_range_exclusive_witness :
    setupCV scanBoundaryParams = some (EC_SETUP + EC_SE_SCAN_RANGE_ERROR, []) :=
  (C4_scan_range_exclusive scanBoundaryParams rfl (by
    intro i hi
    simp only [CV_NUM_PARAMETER] at hi
    interval_cases i <;>
      norm_num [scanBoundaryParams, refsOfP, listReferenceList, entryOk,
        vertexLB, vertexUB, fVoltageRange, VOLTAGE_RANGE, VOLTAGE_RANGE_FWP,
        MIN_STEP_SIZE, MAX_STEP_SIZE, MIN_SCAN_RATE, MAX_SCAN_RATE,
        MIN_CYCLE, MAX_CYCLE, LPTIARTIA_OPEN, LPTIARTIA_512K,
        ADCSINC2OSR_DISABLED, ADCSINC2OSR_1333, ADCSINC3OSR_DISABLED,
        ADCSINC3OSR_2])).1 (by
    norm_num [scanBoundaryParams, scanSpanOf, envelopeOf, fVoltageRange,
      VOLTAGE_RANGE, VOLTAGE_RANGE_FWP])

/-- Witness for C5: a step size of 0, strictly below `MIN_STEP_SIZE`, is
rejected with the bounds error for position 3. -/
theorem C5_inclusive_bounds_witness :
    setupCV stepOOBParams = some (EC_SETUP + EC_SE_PARAM_OUT_OF_BOUND + 3, []) :=
  (C5_inclusive_bounds stepOOBParams 3 rfl (by norm_num [CV_NUM_PARAMETER])
    (by
      intro j hj
      interval_cases j <;>
        norm_num [stepOOBParams, refsOfP, listReferenceList, entryOk,
          vertexLB, vertexUB, fVoltageRange, VOLTAGE_RANGE, VOLTAGE_RANGE_FWP,
          MIN_STEP_SIZE, MAX_STEP_SIZE, MIN_SCAN_RATE, MAX_SCAN_RATE,
          MIN_CYCLE, MAX_CYCLE, LPTIARTIA_OPEN, LPTIARTIA_512K,
          ADCSINC2OSR_DISABLED, ADCSINC2OSR_1333, ADCSINC3OSR_DISABLED,
          ADCSINC3OSR_2])
    rfl).mpr (by
      left
      norm_num [stepOOBParams, refsOfP, listReferenceList, MIN_STEP_SIZE])

/-- Witness for C6 at a concrete instantiation. -/
theorem C6_derived_bounds_witness :
    (listReferenceList (vertexLB 1 2) (vertexUB 1 2)
        (fVoltageRange 0)).getD 0 default =
      (START_POTENTIAL, min 1 2, max 1 2) :=
  (C6_derived_bounds 1 2 0).1

/-- Witness for C8 at a concrete instantiation: swapping the vertex values
500 and -500 leaves the outcome unchanged. -/
theorem C8_vertex_swap_witness :
    Option.map Prod.fst (setupCV ((START_POTENTIAL, (0 : ℚ)) ::
        (LOWER_POTENTIAL, 500) :: (UPPER_POTENTIAL, -500) ::
        validParams.drop 3)) =
      Option.map Prod.fst (setupCV ((START_POTENTIAL, (0 : ℚ)) ::
        (LOWER_POTENTIAL, -500) :: (UPPER_POTENTIAL, 500) ::
        validParams.drop 3)) :=
  (C8_vertex_swap (START_POTENTIAL, (0 : ℚ)) LOWER_POTENTIAL UPPER_POTENTIAL
    500 (-500) (validParams.drop 3)).2.2

/-- Witness for C9: in `poisonedParams` the first violation is the wrong
name at position 2, and the naming error for position 2 wins even though
later entries are poisoned with invalid names and values. -/
theorem C9_name_check_short_circuits_witness :
    setupCV poisonedParams = some (EC_SETUP + EC_SE_PARAM_NOT_FOUND + 2, []) :=
  C9_name_check_short_circuits poisonedParams 2 rfl
    (by norm_num [CV_NUM_PARAMETER])
    (by
      intro j hj
      interval_cases j <;>
        norm_num [poisonedParams, refsOfP, listReferenceList, entryOk,
          vertexLB, vertexUB, fVoltageRange, VOLTAGE_RANGE, VOLTAGE_RANGE_FWP,
          MIN_STEP_SIZE, MAX_STEP_SIZE, MIN_SCAN_RATE, MAX_SCAN_RATE,
          MIN_CYCLE, MAX_CYCLE, LPTIARTIA_OPEN, LPTIARTIA_512K,
          ADCSINC2OSR_DISABLED, ADCSINC2OSR_1333, ADCSINC3OSR_DISABLED,
          ADCSINC3OSR_2])
    (by decide)

/-- Witness for C10: a 12-entry list yields the generic arity code
base + 1, not base + 4. -/
theorem C10_code_taxonomy_witness :
    setupCV twelveParams = some (EC_SETUP + EC_SE_AMOUNT_PARAMETER, []) :=
  C10_code_taxonomy.2 twelveParams
    (by norm_num [twelveParams, validParams, CV_NUM_PARAMETER])

end FreiStat
